import Mathlib

/-!
Verification of the countdown-bot repository (src/app.py and
src/api/send_daily_job.py) against its natural-language specification.

The embedding translates the repository's Python functions into executable
Lean definitions:

* Firestore is modelled by `Store`: the single `line_bot_configs/main_config`
  document written by app.py (`main_config : Option Config`; `none` means the
  document does not exist yet) together with the `chats` collection read by
  send_daily_job.py (a list of `(chat_id, exam_date field)` pairs; nothing in
  the repository writes this collection).  An unavailable Firestore client
  (`db is None` after a failed initialization) is the `none` case of
  `Option Store`.
* Python strings are Lean `String`s; `str.split()`, `str.startswith` and
  `datetime.strptime(s, "%Y-%m-%d")` are translated character-by-character
  (`py_split`, `starts_with_text`, `parse_date`).  CPython's `_strptime`
  accepts a four-digit year and one- or two-digit month and day separated by
  dashes, with no leftover characters, and then validates the calendar date;
  `parse_date` reproduces exactly that acceptance set (over ASCII digits).
* Naive `datetime` values at midnight are day ordinals (`Int`, days since
  1970-01-01 in the proleptic Gregorian calendar, the scale on which Python's
  `timedelta.days` subtraction operates); `rata_die` converts a parsed
  `(y, m, d)` to that ordinal.
* Replies and pushes are recorded as result values rather than performed;
  Python exceptions inside a `try` are `Except PyErr`.
-/

/-- Python exceptions that can be raised inside the translated `try` blocks. -/
inductive PyErr where
  | typeError
  | deliveryFailure
  | valueError
deriving DecidableEq

/-- The `main_config` document of app.py: `exam_date`, `registered_users`,
`registered_groups`.  Every write in the repository goes through
`save_config`, which stores all three fields, so the document is typed. -/
structure Config where
  exam_date : Option String
  registered_users : List String
  registered_groups : List String
deriving DecidableEq

/-- Firestore contents: app.py's single config document (`none` when the
`main_config` document does not exist) and send_daily_job.py's `chats`
collection, each document carrying its `exam_date` field. -/
structure Store where
  main_config : Option Config
  chats : List (String × Option String)
deriving DecidableEq

/-- The default config app.py falls back to:
`{"exam_date": None, "registered_users": [], "registered_groups": []}`. -/
def default_config : Config := ⟨none, [], []⟩

/-- app.py `load_config` (lines 90-124): with `db is None` it logs and returns
the default config; with the document present it returns the stored config
(the `isinstance` list normalization is the identity on typed documents);
with the document absent it writes the initial config and returns it. -/
def load_config : Option Store → Config × Option Store
  | none => (default_config, none)
  | some st =>
    match st.main_config with
    | some c => (c, some st)
    | none => (default_config, some { st with main_config := some default_config })

/-- app.py `save_config` (lines 126-140): with `db is None` it logs and
returns (no write); otherwise it overwrites the whole `main_config`
document with the given config. -/
def save_config (c : Config) : Option Store → Option Store
  | none => none
  | some st => some { st with main_config := some c }

/-- app.py `set_exam_date` (lines 187-193): load the config, replace its
`exam_date` field and save it back. -/
def set_exam_date (date_str : String) (dbs : Option Store) : Option Store :=
  let r := load_config dbs
  save_config { r.1 with exam_date := some date_str } r.2

/-- Is a leap year (Gregorian), as Python's `datetime` validates dates. -/
def is_leap (y : Nat) : Bool := (y % 4 = 0 && y % 100 ≠ 0) || y % 400 = 0

/-- Days in a month of a given year, as Python's `datetime` validates. -/
def days_in_month (y m : Nat) : Nat :=
  if m = 2 then (if is_leap y then 29 else 28)
  else if m = 4 ∨ m = 6 ∨ m = 9 ∨ m = 11 then 30
  else 31

/-- Decimal value of an ASCII digit, `none` on a non-digit. -/
def digit_val (c : Char) : Option Nat :=
  if c.isDigit then some (c.toNat - 48) else none

/-- Decimal value of a digit string, `none` if any character is not a digit. -/
def digits_val (cs : List Char) : Option Nat :=
  cs.foldl (fun acc c => acc.bind fun a => (digit_val c).map fun d => a * 10 + d) (some 0)

/-- Range validation performed by `datetime` after the `_strptime` regex:
year at least `MINYEAR = 1`, month 1..12, day 1..days-in-month. -/
def check_ymd (ys ms ds : List Char) : Option (Nat × Nat × Nat) :=
  (digits_val ys).bind fun y =>
  (digits_val ms).bind fun m =>
  (digits_val ds).bind fun d =>
  if 1 ≤ y ∧ 1 ≤ m ∧ m ≤ 12 ∧ 1 ≤ d ∧ d ≤ days_in_month y m then some (y, m, d) else none

/-- `datetime.strptime(s, "%Y-%m-%d")` as used by app.py, returning the
parsed `(year, month, day)` or `none` where Python raises `ValueError`.
CPython's `_strptime` compiles the format to the regex
`(\d\d\d\d)-(1[0-2]|0[1-9]|[1-9])-(3[01]|[12]\d|0[1-9]|[1-9])` and rejects
leftover characters, then `datetime` validates the calendar date; the shape
patterns below (four-digit year, one- or two-digit month and day) together
with the range checks of `check_ymd` accept exactly the same strings. -/
def parse_date (s : String) : Option (Nat × Nat × Nat) :=
  match s.data with
  | [a, b, c, d, '-', m1, '-', d1] => check_ymd [a, b, c, d] [m1] [d1]
  | [a, b, c, d, '-', m1, '-', d1, d2] => check_ymd [a, b, c, d] [m1] [d1, d2]
  | [a, b, c, d, '-', m1, m2, '-', d1] => check_ymd [a, b, c, d] [m1, m2] [d1]
  | [a, b, c, d, '-', m1, m2, '-', d1, d2] => check_ymd [a, b, c, d] [m1, m2] [d1, d2]
  | _ => none

/-- Day ordinal (days since 1970-01-01, proleptic Gregorian) of a calendar
date; `(datetime(y1,m1,d1) - datetime(y2,m2,d2)).days` at midnight equals
`rata_die y1 m1 d1 - rata_die y2 m2 d2`. -/
def rata_die (y m d : Nat) : Int :=
  let yy : Int := if m ≤ 2 then (y : Int) - 1 else (y : Int)
  let era : Int := yy.ediv 400
  let yoe : Int := yy - era * 400
  let mp : Nat := (m + 9) % 12
  let doy : Int := ((153 * (mp : Int) + 2).ediv 5) + (d : Int) - 1
  let doe : Int := yoe * 365 + yoe.ediv 4 - yoe.ediv 100 + doy
  era * 146097 + doe - 719468

-- Message constants of app.py, with Python f-string interpolation rendered
-- by string concatenation.

/-- app.py line 153. -/
def not_configured_msg : String :=
  "很抱歉，尚未設定考試日期。請輸入\u0027設定考試日期YYYY-MM-DD\u0027來設定。"

/-- app.py line 185. -/
def bad_format_msg : String :=
  "考試日期格式錯誤，請檢查設定或重新設定。正確格式為YYYY-MM-DD。"

/-- app.py line 169, the 100-days milestone. -/
def msg_100 (dl : Int) : String :=
  "⌛時光飛逝，你只剩下" ++ toString dl ++ " 天，趕快拿起書本來📚📚"

/-- app.py line 171, the 90-days milestone. -/
def msg_90 (dl : Int) : String :=
  "沒想到已經剩下" ++ toString dl ++ " 天\n｡ﾟヽ(ﾟ´Д\u0060)ﾉﾟ｡時間都在我的睡夢中流失了！"

/-- app.py line 173, the 30-days milestone. -/
def msg_30 (dl : Int) : String :=
  "距離考試只剩下 " ++ toString dl ++ " 天！\n祝你考試像打遊戲一樣，一路都是暴擊，分數直接爆表！🔥🔥"

/-- app.py line 175, the 10-days milestone. -/
def msg_10 (dl : Int) : String :=
  "距離考試只剩下 " ++ toString dl ++ " 天！\n祝你考試像吃雞腿一樣，輕鬆又美味，分數高高🍗"

/-- app.py line 177, the generic positive-days message. -/
def msg_generic (dl : Int) : String :=
  "你今天讀書了嗎？💥\n距離考試只剩下 " ++ toString dl ++ " 天！加油！💪💪💪"

/-- app.py line 179, the exam-day message. -/
def msg_zero : String := "你今天讀書了嗎？\n今天是考試的日子🏆金榜題名🏆"

/-- app.py line 181, the already-ended message (`abs(days_left)` and the
stored date string interpolated). -/
def msg_ended (exam_date_str : String) (n : Nat) : String :=
  "考試 (" ++ exam_date_str ++ ") 已經在 " ++ toString n ++ " 天前結束了。期待你下次的挑戰！"

/-- app.py `get_countdown_message` lines 149-185, factored over the loaded
`exam_date` field and today's day ordinal: a falsy `exam_date`
(`None` or the empty string) gives the not-configured message; an
unparseable string raises `ValueError`, caught as the bad-format message;
otherwise `days_left = (exam_date - today).days` selects the message. -/
def countdown_text (exam_date_str : Option String) (today : Int) : String :=
  match exam_date_str with
  | none => not_configured_msg
  | some s =>
    if s = "" then not_configured_msg
    else
      match parse_date s with
      | none => bad_format_msg
      | some (y, m, d) =>
        let days_left := rata_die y m d - today
        if days_left > 0 then
          if days_left = 100 then msg_100 days_left
          else if days_left = 90 then msg_90 days_left
          else if days_left = 30 then msg_30 days_left
          else if days_left = 10 then msg_10 days_left
          else msg_generic days_left
        else if days_left = 0 then msg_zero
        else msg_ended s days_left.natAbs

/-- app.py `get_countdown_message` (lines 143-185): loads the config from
Firestore (possibly creating the document) and formats from its
`exam_date` and today's day ordinal. -/
def get_countdown_message (today : Int) (dbs : Option Store) : String × Option Store :=
  let r := load_config dbs
  (countdown_text r.1.exam_date today, r.2)

/-- Python `str.startswith`, over character lists. -/
def starts_with_text : List Char → List Char → Bool
  | [], _ => true
  | _ :: _, [] => false
  | p :: ps, c :: cs => p == c && starts_with_text ps cs

/-- Helper of `py_split`: accumulates the current token (reversed). -/
def py_split_aux : List Char → List Char → List String
  | [], acc => if acc = [] then [] else [String.mk acc.reverse]
  | c :: cs, acc =>
    if c.isWhitespace then
      if acc = [] then py_split_aux cs []
      else String.mk acc.reverse :: py_split_aux cs []
    else py_split_aux cs (c :: acc)

/-- Python `str.split()` with no arguments: split on whitespace runs,
discarding empty tokens. -/
def py_split (s : String) : List String := py_split_aux s.data []

/-- The set-date command literal of app.py line 312. -/
def cmd_set : String := "設定考試日期"

/-- The query command literal of app.py line 343. -/
def cmd_query : String := "查詢剩餘天數"

/-- app.py line 339, the usage-hint reply. -/
def usage_msg : String := "請輸入正確的指令格式：設定考試日期YYYY-MM-DD"

/-- app.py line 331, the format-error reply. -/
def format_error_msg : String :=
  "日期格式不正確，請使用YYYY-MM-DD，例如：設定考試日期 2025-10-26"

/-- app.py line 323, the confirmation reply. -/
def set_ok_msg (date_str : String) : String := "考試日期已設定為：" ++ date_str

/-- app.py `handle_message` (lines 301-351): returns the list of reply
messages sent and the resulting store.  `today` is the day ordinal the
query path's `datetime.now()` falls on.  Mirrors the source: the set-date
branch checks `text.startswith`, `len(text.split()) == 2`, validates
`parts[1]` with `strptime` and stores the raw string; the query branch
replies with the countdown message; other text falls through with no
reply and no store access. -/
def handle_message (today : Int) (text : String) (dbs : Option Store) :
    List String × Option Store :=
  if starts_with_text cmd_set.data text.data then
    let parts := py_split text
    if parts.length = 2 then
      let date_str := parts.getD 1 ""
      match parse_date date_str with
      | some _ => ([set_ok_msg date_str], set_exam_date date_str dbs)
      | none => ([format_error_msg], dbs)
    else ([usage_msg], dbs)
  else if text = cmd_query then
    let r := get_countdown_message today dbs
    ([r.1], r.2)
  else ([], dbs)

/-- An inbound LINE message event: the resolved source identifier (group id
for a group event, user id otherwise) and the message text. -/
structure InboundEvent where
  sourceId : String
  text : String

/-- The message handler as invoked with a full event: app.py's
`handle_message` reads `event.message.text` and `event.reply_token` only;
the sender's identifier is never consulted. -/
def handle_message_event (today : Int) (ev : InboundEvent) (dbs : Option Store) :
    List String × Option Store :=
  handle_message today ev.text dbs

/-- The target date a given chat's `查詢剩餘天數` command reads: the query
path loads the single `main_config` document, so every chat observes the
same stored `exam_date` whatever its identifier. -/
def observed_target_date (_chat_id : String) (dbs : Option Store) : Option String :=
  (load_config dbs).1.exam_date

-- The clock model for app.py's `datetime.now().replace(hour=0, minute=0,
-- second=0, microsecond=0)` (line 159).  An instant is the number of minutes
-- since 1970-01-01T00:00 UTC; the host's local wall clock is the instant
-- shifted by the host timezone's offset in minutes, and normalizing it to
-- midnight keeps exactly the local calendar day ordinal.

/-- The local calendar day ordinal at instant `t` (minutes since epoch, UTC)
for a host whose local timezone is `offset` minutes ahead of UTC: this is
the `today` that app.py's `datetime.now().replace(...)` produces. -/
def local_day (offset t : Int) : Int := (t + offset).ediv 1440

/-- `get_countdown_message` as it runs at instant `t` on a host with local
timezone `offset`: the source takes `today` from the naive `datetime.now()`
of the process, which is the host's local clock. -/
def get_countdown_message_at (offset t : Int) (dbs : Option Store) :
    String × Option Store :=
  get_countdown_message (local_day offset t) dbs

/-- Modelled from the spec: the day ordinal at instant `t` in the fixed
Asia/Taipei reference timezone (UTC+8, 480 minutes), as the spec's words
prescribe for normalizing `today` ("both operands normalized to midnight in
that timezone").  For comparison with `local_day`/`get_countdown_message_at`. -/
def taipei_day (t : Int) : Int := local_day 480 t

/-- Modelled from the spec: the formatter run at instant `t` with `today`
normalized in Asia/Taipei, as the spec prescribes. -/
def get_countdown_message_taipei (t : Int) (dbs : Option Store) :
    String × Option Store :=
  get_countdown_message (taipei_day t) dbs

-- send_daily_job.py: the Vercel cron entry point.

/-- send_daily_job.py line 39 calls `get_countdown_message(exam_date_str)`,
but the `get_countdown_message` it imports from app.py (line 143) takes no
parameters, so in Python the call raises
`TypeError: get_countdown_message() takes 0 positional arguments but 1 was
given` before any formatting runs.  The call site sits inside the per-chat
`try` block, so the error is caught by the `except` at line 47. -/
def get_countdown_message_one_arg_call (_exam_date_str : String) :
    Except PyErr String :=
  Except.error PyErr.typeError

/-- Outcome of one iteration of the per-chat loop of `execute_job`. -/
inductive ChatOutcome where
  | skipped
  | pushedOk (msg : String)
  | failed
deriving DecidableEq

/-- One iteration of `execute_job`'s loop (send_daily_job.py lines 32-48):
a falsy `exam_date` field skips the chat silently; otherwise the body
formats and pushes inside `try`, and any exception is caught and logged.
`push` is the external delivery channel (`line_bot_api.push_message`),
which may raise for a given recipient. -/
def run_chat (push : String → String → Except PyErr Unit)
    (chat_id : String) (exam_date_str : Option String) : ChatOutcome :=
  match exam_date_str with
  | none => ChatOutcome.skipped
  | some s =>
    if s = "" then ChatOutcome.skipped
    else
      match (get_countdown_message_one_arg_call s).bind fun m =>
          (push chat_id m).map fun _ => m with
      | Except.ok m => ChatOutcome.pushedOk m
      | Except.error _ => ChatOutcome.failed

/-- Result of a cron run: the returned boolean, the successfully pushed
`(chat_id, message)` pairs in iteration order, and the chat ids whose
iteration logged a failure, in iteration order. -/
structure JobResult where
  ok : Bool
  pushed : List (String × String)
  failed : List String
deriving DecidableEq

/-- The per-chat loop of `execute_job` over the streamed `chats` documents. -/
def job_loop (push : String → String → Except PyErr Unit) :
    List (String × Option String) → JobResult
  | [] => ⟨true, [], []⟩
  | (cid, eds) :: rest =>
    let r := job_loop push rest
    match run_chat push cid eds with
    | ChatOutcome.skipped => ⟨r.ok, r.pushed, r.failed⟩
    | ChatOutcome.pushedOk m => ⟨r.ok, (cid, m) :: r.pushed, r.failed⟩
    | ChatOutcome.failed => ⟨r.ok, r.pushed, cid :: r.failed⟩

/-- send_daily_job.py `execute_job` (lines 20-49): with the store client
unavailable it logs and returns `False`; otherwise it iterates every
document of the `chats` collection and returns `True`. -/
def execute_job (push : String → String → Except PyErr Unit) :
    Option Store → JobResult
  | none => ⟨false, [], []⟩
  | some st => job_loop push st.chats

/-- Does the cron authorization check of `handler.do_GET`
(send_daily_job.py lines 56-67) reject the request: a truthy `CRON_SECRET`
whose `Bearer` header does not match (a missing header never equals the
expected string). -/
def cron_auth_fails (cron_secret auth_header : Option String) : Bool :=
  match cron_secret with
  | none => false
  | some sec =>
    if sec = "" then false
    else if auth_header = some ("Bearer " ++ sec) then false
    else true

/-- send_daily_job.py `handler.do_GET` (lines 52-82), abstracted to the HTTP
status code and the `status` field of the JSON body it writes
(`"success"` for 200, `"error"` for 401 and 500). -/
def do_GET (push : String → String → Except PyErr Unit) (dbs : Option Store)
    (cron_secret auth_header : Option String) : Nat × String :=
  if cron_auth_fails cron_secret auth_header then (401, "error")
  else if (execute_job push dbs).ok then (200, "success")
  else (500, "error")

-- Helper lemmas shared by the claim theorems.

/-- The empty string never parses as a date (Python raises `ValueError`). -/
lemma parse_date_ne_empty {s : String} {v : Nat × Nat × Nat}
    (h : parse_date s = some v) : s ≠ "" := by
  intro he
  rw [he] at h
  exact Option.noConfusion ((rfl : parse_date "" = none) ▸ h)

/-- The per-chat loop of `execute_job` never changes the returned boolean:
it is `True` whatever each iteration does. -/
lemma job_loop_ok_true (push : String → String → Except PyErr Unit) :
    ∀ l : List (String × Option String), (job_loop push l).ok = true := by
  intro l
  induction l with
  | nil => rfl
  | cons hd tl ih =>
    obtain ⟨cid, eds⟩ := hd
    cases hrc : run_chat push cid eds <;> simp [job_loop, hrc, ih]

-- C8 ---------------------------------------------------------------------

/-- C8: any inbound text that does not start with the set-date prefix and is
not exactly the query command produces no reply and leaves the store
untouched. -/
theorem unrecognized_text_ignored (today : Int) (text : String)
    (dbs : Option Store)
    (h1 : starts_with_text cmd_set.data text.data = false)
    (h2 : text ≠ cmd_query) :
    handle_message today text dbs = ([], dbs) := by
  simp [handle_message, h1, h2]

/-- C8 witness: the concrete text "hello" is ignored with no store write. -/
theorem unrecognized_text_ignored_witness :
    starts_with_text cmd_set.data ("hello").data = false ∧
    ("hello" : String) ≠ cmd_query ∧
    handle_message 0 ("hello") (some ⟨some default_config, []⟩)
      = ([], some ⟨some default_config, []⟩) :=
  ⟨by decide, by decide,
    unrecognized_text_ignored 0 ("hello") (some ⟨some default_config, []⟩)
      (by decide) (by decide)⟩

-- C9 ---------------------------------------------------------------------

/-- C9: with the store client unavailable (`db is None`), a valid
"設定考試日期 X" command still sends the success confirmation containing X,
although nothing is persisted (`save_config` only logs and returns). -/
theorem set_date_confirms_without_persisting (today : Int)
    (text t0 t1 : String) (y m d : Nat)
    (h1 : starts_with_text cmd_set.data text.data = true)
    (h2 : py_split text = [t0, t1])
    (h3 : parse_date t1 = some (y, m, d)) :
    handle_message today text none = ([set_ok_msg t1], none) := by
  simp [handle_message, h1, h2, h3, set_exam_date, load_config, save_config]

/-- C9 witness: "設定考試日期 2025-10-26" with no store yields the success
reply and no persisted state. -/
theorem set_date_confirms_without_persisting_witness :
    parse_date ("2025-10-26") = some (2025, 10, 26) ∧
    handle_message 0 ("設定考試日期 2025-10-26") none
      = ([set_ok_msg ("2025-10-26")], none) :=
  ⟨by decide,
    set_date_confirms_without_persisting 0 ("設定考試日期 2025-10-26")
      ("設定考試日期") ("2025-10-26") 2025 10 26 (by decide) (by decide) (by decide)⟩

-- C6 ---------------------------------------------------------------------

/-- C6: when the store client failed to initialize, every dependent
operation short-circuits instead of throwing: `load_config` returns the
default config, `save_config` is a no-op, the query path returns the
not-configured message, the scheduled `execute_job` exits with `False` and
no pushes or per-chat failures, and the message handler never produces a
store. -/
theorem store_unavailable_short_circuits :
    load_config none = (default_config, none) ∧
    (∀ c : Config, save_config c none = none) ∧
    (∀ today : Int, get_countdown_message today none = (not_configured_msg, none)) ∧
    (∀ push : String → String → Except PyErr Unit,
      execute_job push none = ⟨false, [], []⟩) ∧
    (∀ (today : Int) (text : String), (handle_message today text none).2 = none) := by
  refine ⟨rfl, fun c => rfl, fun today => rfl, fun push => rfl, fun today text => ?_⟩
  by_cases h1 : starts_with_text cmd_set.data text.data = true
  · by_cases h2 : (py_split text).length = 2
    · simp only [handle_message, h1, if_true, h2, set_exam_date, load_config,
        save_config]
      split <;> rfl
    · simp [handle_message, h1, h2]
  · by_cases h2 : text = cmd_query
    · subst h2
      rfl
    · simp [handle_message, h1, h2]

-- C4 ---------------------------------------------------------------------

/-- Modelled from the spec: "exactly one token after the prefix must parse
as YYYY-MM-DD (strict; reject any other format)" — the strict grammar is
four digits, dash, two digits, dash, two digits, forming a valid calendar
date.  Used to compare the spec's validation rule with the code's
`strptime` acceptance. -/
def spec_strict_ymd (s : String) : Bool :=
  match s.data with
  | [a, b, c, d, '-', m1, m2, '-', d1, d2] =>
    (check_ymd [a, b, c, d] [m1, m2] [d1, d2]).isSome
  | _ => false

/-- C4 counterexample: the token "2025-1-2" is not strict YYYY-MM-DD, yet
the handler replies with the success confirmation (not the format-error
message) and the store changes: `strptime("%Y-%m-%d")` accepts unpadded
months and days. -/
theorem set_date_accepts_unpadded_date :
    spec_strict_ymd ("2025-1-2") = false ∧
    handle_message 0 ("設定考試日期 2025-1-2") (some ⟨some default_config, []⟩)
      = ([set_ok_msg ("2025-1-2")], some ⟨some ⟨some ("2025-1-2"), [], []⟩, []⟩) ∧
    (handle_message 0 ("設定考試日期 2025-1-2") (some ⟨some default_config, []⟩)).1
      ≠ [format_error_msg] ∧
    (handle_message 0 ("設定考試日期 2025-1-2") (some ⟨some default_config, []⟩)).2
      ≠ some ⟨some default_config, []⟩ := by
  refine ⟨by decide, by decide, by decide, by decide⟩

/-- C4 (amended): for text starting with the set-date prefix, a
whitespace-split token count other than two yields the usage-hint reply
with the store unchanged, and a second token rejected by
`strptime("%Y-%m-%d")` (four-digit year, one- or two-digit month and day
forming a valid calendar date — zero padding optional) yields the
format-error reply with the store unchanged. -/
theorem set_date_validation_replies (today : Int) (text : String)
    (dbs : Option Store)
    (h1 : starts_with_text cmd_set.data text.data = true) :
    ((py_split text).length ≠ 2 → handle_message today text dbs = ([usage_msg], dbs)) ∧
    (∀ t0 t1 : String, py_split text = [t0, t1] → parse_date t1 = none →
      handle_message today text dbs = ([format_error_msg], dbs)) := by
  constructor
  · intro hl
    simp [handle_message, h1, hl]
  · intro t0 t1 h2 h3
    simp [handle_message, h1, h2, h3]

/-- C4 witness: "設定考試日期" with no date gets the usage hint, and
"設定考試日期 2025-13-40" gets the format error; both leave the store
unchanged. -/
theorem set_date_validation_replies_witness :
    (py_split ("設定考試日期")).length ≠ 2 ∧
    handle_message 0 ("設定考試日期") (some ⟨some default_config, []⟩)
      = ([usage_msg], some ⟨some default_config, []⟩) ∧
    parse_date ("2025-13-40") = none ∧
    handle_message 0 ("設定考試日期 2025-13-40") (some ⟨some default_config, []⟩)
      = ([format_error_msg], some ⟨some default_config, []⟩) :=
  ⟨by decide,
    (set_date_validation_replies 0 ("設定考試日期")
      (some ⟨some default_config, []⟩) (by decide)).1 (by decide),
    by decide,
    (set_date_validation_replies 0 ("設定考試日期 2025-13-40")
      (some ⟨some default_config, []⟩) (by decide)).2 ("設定考試日期")
      ("2025-13-40") (by decide) (by decide)⟩

-- C1 ---------------------------------------------------------------------

/-- C1 counterexample: two distinct chats, "userA" and "userB", with the
stored exam date "2025-01-01"; "userA" handling "設定考試日期 2025-10-26"
changes the target date that "userB" reads from "2025-01-01" to
"2025-10-26" — the set-date command is not isolated per chat, because
app.py keeps one global `main_config.exam_date`. -/
theorem set_date_leaks_across_chats :
    ("userA" : String) ≠ "userB" ∧
    observed_target_date ("userB")
      (some ⟨some ⟨some ("2025-01-01"), [], []⟩, []⟩) = some ("2025-01-01") ∧
    observed_target_date ("userB")
      ((handle_message_event 0 ⟨"userA", "設定考試日期 2025-10-26"⟩
        (some ⟨some ⟨some ("2025-01-01"), [], []⟩, []⟩)).2) = some ("2025-10-26") := by
  refine ⟨by decide, by decide, by decide⟩

/-- C1 (amended): handling a valid "設定考試日期 X" command from any sender
writes X into the single shared `exam_date` of the `main_config` document,
which every chat — the sender, any other individual, any group — then
observes; there is no per-chat target date in the code. -/
theorem set_date_updates_global_exam_date (today : Int)
    (a b text t0 t1 : String) (st : Store) (y m d : Nat)
    (h1 : starts_with_text cmd_set.data text.data = true)
    (h2 : py_split text = [t0, t1])
    (h3 : parse_date t1 = some (y, m, d)) :
    observed_target_date b
      ((handle_message_event today ⟨a, text⟩ (some st)).2) = some t1 := by
  cases hmc : st.main_config <;>
    simp [handle_message_event, handle_message, h1, h2, h3, set_exam_date,
      load_config, save_config, observed_target_date, hmc]

/-- C1 witness: a concrete group sender and an unrelated individual both end
up observing the newly written date. -/
theorem set_date_updates_global_exam_date_witness :
    parse_date ("2025-10-26") = some (2025, 10, 26) ∧
    observed_target_date ("userB")
      ((handle_message_event 0 ⟨"groupA", "設定考試日期 2025-10-26"⟩
        (some ⟨some ⟨some ("2025-01-01"), ["userB"], ["groupA"]⟩, []⟩)).2)
      = some ("2025-10-26") :=
  ⟨by decide,
    set_date_updates_global_exam_date 0 ("groupA") ("userB")
      ("設定考試日期 2025-10-26") ("設定考試日期") ("2025-10-26")
      ⟨some ⟨some ("2025-01-01"), ["userB"], ["groupA"]⟩, []⟩ 2025 10 26
      (by decide) (by decide) (by decide)⟩

-- C5 ---------------------------------------------------------------------

/-- C5 counterexample: the handler's result — reply and resulting store — is
identical for two distinct senders, and the store after the command holds
only the global `main_config` with the new `exam_date`: nothing is stored
under the sender's resolved id, and no per-chat record with a `kind` field
exists to be preserved. -/
theorem set_date_ignores_sender_id :
    ("userA" : String) ≠ "userB" ∧
    handle_message_event 0 ⟨"userA", "設定考試日期 2025-10-26"⟩
        (some ⟨some default_config, []⟩)
      = handle_message_event 0 ⟨"userB", "設定考試日期 2025-10-26"⟩
        (some ⟨some default_config, []⟩) ∧
    (handle_message_event 0 ⟨"userA", "設定考試日期 2025-10-26"⟩
        (some ⟨some default_config, []⟩)).2
      = some ⟨some ⟨some ("2025-10-26"), [], []⟩, []⟩ := by
  refine ⟨by decide, by decide, by decide⟩

/-- C5 (amended): with the store available, handling a valid
"設定考試日期 X" command replies with the confirmation containing X, stores
X as the single global `exam_date` (read back by `load_config`, hence by the
query path of any chat), and the unrelated fields of the config document —
`registered_users` and `registered_groups` — are preserved by the save;
a subsequent "查詢剩餘天數" replies with the countdown formatted from X. -/
theorem set_date_roundtrip_global (today : Int) (text t0 t1 : String)
    (st : Store) (c : Config) (y m d : Nat)
    (h0 : st.main_config = some c)
    (h1 : starts_with_text cmd_set.data text.data = true)
    (h2 : py_split text = [t0, t1])
    (h3 : parse_date t1 = some (y, m, d)) :
    (handle_message today text (some st)).1 = [set_ok_msg t1] ∧
    (load_config (handle_message today text (some st)).2).1.exam_date = some t1 ∧
    (load_config (handle_message today text (some st)).2).1.registered_users
      = c.registered_users ∧
    (load_config (handle_message today text (some st)).2).1.registered_groups
      = c.registered_groups ∧
    (handle_message today cmd_query (handle_message today text (some st)).2).1
      = [countdown_text (some t1) today] := by
  have hq : starts_with_text cmd_set.data cmd_query.data = false := by decide
  have hqq : cmd_query = cmd_query := rfl
  simp [handle_message, h0, h1, h2, h3, hq, hqq, set_exam_date, load_config,
    save_config, get_countdown_message]

/-- C5 witness: setting "2025-10-26" on a store with registered users and
groups keeps those lists and reads the date back. -/
theorem set_date_roundtrip_global_witness :
    parse_date ("2025-10-26") = some (2025, 10, 26) ∧
    ((handle_message 5 ("設定考試日期 2025-10-26")
        (some ⟨some ⟨some ("2024-01-01"), ["u1"], ["g1"]⟩, []⟩)).1
      = [set_ok_msg ("2025-10-26")] ∧
    (load_config (handle_message 5 ("設定考試日期 2025-10-26")
        (some ⟨some ⟨some ("2024-01-01"), ["u1"], ["g1"]⟩, []⟩)).2).1.exam_date
      = some ("2025-10-26") ∧
    (load_config (handle_message 5 ("設定考試日期 2025-10-26")
        (some ⟨some ⟨some ("2024-01-01"), ["u1"], ["g1"]⟩, []⟩)).2).1.registered_users
      = (⟨some ("2024-01-01"), ["u1"], ["g1"]⟩ : Config).registered_users ∧
    (load_config (handle_message 5 ("設定考試日期 2025-10-26")
        (some ⟨some ⟨some ("2024-01-01"), ["u1"], ["g1"]⟩, []⟩)).2).1.registered_groups
      = (⟨some ("2024-01-01"), ["u1"], ["g1"]⟩ : Config).registered_groups ∧
    (handle_message 5 cmd_query (handle_message 5 ("設定考試日期 2025-10-26")
        (some ⟨some ⟨some ("2024-01-01"), ["u1"], ["g1"]⟩, []⟩)).2).1
      = [countdown_text (some ("2025-10-26")) 5]) :=
  ⟨by decide,
    set_date_roundtrip_global 5 ("設定考試日期 2025-10-26") ("設定考試日期")
      ("2025-10-26") ⟨some ⟨some ("2024-01-01"), ["u1"], ["g1"]⟩, []⟩
      ⟨some ("2024-01-01"), ["u1"], ["g1"]⟩ 2025 10 26 rfl (by decide)
      (by decide) (by decide)⟩

-- C3 ---------------------------------------------------------------------

/-- On any parsed date the formatter reduces to its message-selection
if-chain on `days_left`. -/
lemma countdown_text_parsed (s : String) (y m d : Nat) (today : Int)
    (hp : parse_date s = some (y, m, d)) :
    countdown_text (some s) today =
      (if rata_die y m d - today > 0 then
        if rata_die y m d - today = 100 then msg_100 (rata_die y m d - today)
        else if rata_die y m d - today = 90 then msg_90 (rata_die y m d - today)
        else if rata_die y m d - today = 30 then msg_30 (rata_die y m d - today)
        else if rata_die y m d - today = 10 then msg_10 (rata_die y m d - today)
        else msg_generic (rata_die y m d - today)
      else if rata_die y m d - today = 0 then msg_zero
      else msg_ended s (rata_die y m d - today).natAbs) := by
  have hs : ¬(s = "") := parse_date_ne_empty hp
  simp only [countdown_text, if_neg hs, hp]

/-- C3: the formatter's selection policy.  A `None` target date yields the
not-configured message regardless of today; for a parseable target date,
with `days_left = rata_die y m d - today`, the milestone values 100, 90,
30 and 10 yield their milestone messages, any other positive value yields
the generic message interpolating `days_left`, zero yields the exam-day
message, and `-n` with `n > 0` yields the already-ended message
interpolating `n` and the stored date string. -/
theorem countdown_message_selection_policy :
    (∀ today : Int, countdown_text none today = not_configured_msg) ∧
    (∀ (s : String) (y m d : Nat) (today : Int), parse_date s = some (y, m, d) →
      (rata_die y m d - today = 100 →
        countdown_text (some s) today = msg_100 100) ∧
      (rata_die y m d - today = 90 →
        countdown_text (some s) today = msg_90 90) ∧
      (rata_die y m d - today = 30 →
        countdown_text (some s) today = msg_30 30) ∧
      (rata_die y m d - today = 10 →
        countdown_text (some s) today = msg_10 10) ∧
      (0 < rata_die y m d - today → rata_die y m d - today ≠ 100 →
        rata_die y m d - today ≠ 90 → rata_die y m d - today ≠ 30 →
        rata_die y m d - today ≠ 10 →
        countdown_text (some s) today = msg_generic (rata_die y m d - today)) ∧
      (rata_die y m d - today = 0 →
        countdown_text (some s) today = msg_zero) ∧
      (∀ n : Nat, 0 < n → rata_die y m d - today = -(n : Int) →
        countdown_text (some s) today = msg_ended s n)) := by
  refine ⟨fun today => rfl, fun s y m d today hp => ?_⟩
  rw [countdown_text_parsed s y m d today hp]
  refine ⟨?_, ?_, ?_, ?_, ?_, ?_, ?_⟩
  · intro h
    rw [h]
    norm_num
  · intro h
    rw [h]
    norm_num
  · intro h
    rw [h]
    norm_num
  · intro h
    rw [h]
    norm_num
  · intro h0 h1 h2 h3 h4
    rw [if_pos h0, if_neg h1, if_neg h2, if_neg h3, if_neg h4]
  · intro h
    rw [h]
    norm_num
  · intro n hn h
    rw [h, if_neg (by omega : ¬(-(n : Int) > 0)),
      if_neg (by omega : ¬(-(n : Int) = 0))]
    simp [Int.natAbs_neg]

/-- C3 witness: "2025-10-26" seen 100 days earlier (2025-07-18) hits the
100-days milestone message. -/
theorem countdown_message_selection_policy_witness :
    parse_date ("2025-10-26") = some (2025, 10, 26) ∧
    rata_die 2025 10 26 - rata_die 2025 7 18 = 100 ∧
    countdown_text (some ("2025-10-26")) (rata_die 2025 7 18) = msg_100 100 :=
  ⟨by decide, by decide,
    (countdown_message_selection_policy.2 ("2025-10-26") 2025 10 26
      (rata_die 2025 7 18) (by decide)).1 (by decide)⟩

-- C7 ---------------------------------------------------------------------

/-- C7 counterexample: with the exam date 2025-10-27 stored, the two
instants 2025-10-26T20:00 UTC and 2025-10-27T04:00 UTC fall on the same
Asia/Taipei calendar day (2025-10-27), yet on a UTC host (offset 0, as the
deployment platform runs) the code produces different messages at the two
instants, and its message differs from the Asia/Taipei-normalized one:
`datetime.now()` is the host's local clock, not Asia/Taipei. -/
theorem today_not_taipei_normalized :
    taipei_day (rata_die 2025 10 26 * 1440 + 1200)
      = taipei_day (rata_die 2025 10 27 * 1440 + 240) ∧
    (get_countdown_message_at 0 (rata_die 2025 10 26 * 1440 + 1200)
        (some ⟨some ⟨some ("2025-10-27"), [], []⟩, []⟩)).1
      ≠ (get_countdown_message_at 0 (rata_die 2025 10 27 * 1440 + 240)
        (some ⟨some ⟨some ("2025-10-27"), [], []⟩, []⟩)).1 ∧
    (get_countdown_message_at 0 (rata_die 2025 10 26 * 1440 + 1200)
        (some ⟨some ⟨some ("2025-10-27"), [], []⟩, []⟩)).1
      ≠ (get_countdown_message_taipei (rata_die 2025 10 26 * 1440 + 1200)
        (some ⟨some ⟨some ("2025-10-27"), [], []⟩, []⟩)).1 := by
  refine ⟨by decide, by decide, by decide⟩

/-- C7 (amended): `days_left` is a calendar-day difference with `today`
normalized to midnight of the host's local timezone, so two runs at
instants on the same host-local calendar day produce the same message and
store; the computation agrees with the spec's Asia/Taipei normalization
exactly when the host's local offset is UTC+8 (480 minutes). -/
theorem countdown_time_of_day_independent (offset t1 t2 : Int)
    (dbs : Option Store)
    (h : local_day offset t1 = local_day offset t2) :
    get_countdown_message_at offset t1 dbs
      = get_countdown_message_at offset t2 dbs ∧
    get_countdown_message_at 480 t1 dbs = get_countdown_message_taipei t1 dbs := by
  constructor
  · unfold get_countdown_message_at
    rw [h]
  · rfl

/-- C7 witness: two instants of day ordinal 0 (minutes 100 and 1400 after
midnight) give the same message on a UTC host. -/
theorem countdown_time_of_day_independent_witness :
    local_day 0 100 = local_day 0 1400 ∧
    get_countdown_message_at 0 100 (some ⟨some ⟨some ("2025-10-27"), [], []⟩, []⟩)
      = get_countdown_message_at 0 1400
        (some ⟨some ⟨some ("2025-10-27"), [], []⟩, []⟩) :=
  ⟨by decide,
    (countdown_time_of_day_independent 0 100 1400
      (some ⟨some ⟨some ("2025-10-27"), [], []⟩, []⟩) (by decide)).1⟩

-- C2 ---------------------------------------------------------------------

/-- The fan-out scenario store of the spec: three chats, one with no target
date, one with a valid future date, one whose push raises a delivery
error. -/
def c2_store : Store :=
  ⟨some default_config,
    [("chatA", none), ("chatB", some ("2026-01-01")), ("chatC", some ("2026-01-02"))]⟩

/-- The scenario's delivery channel: pushing to "chatC" raises, every other
push succeeds. -/
def c2_push : String → String → Except PyErr Unit :=
  fun chat_id _ =>
    if chat_id = "chatC" then Except.error PyErr.deliveryFailure else Except.ok ()

/-- C2: evaluating `execute_job` on the spec's three-chat scenario.  The run
completes without raising and skips the chat with no date, but — because
`execute_job` calls `get_countdown_message(exam_date_str)` while the
imported app.py function takes no arguments — the per-chat `TypeError` is
caught for both configured chats: zero pushes succeed and two failures are
logged, where the claim expects exactly one successful push and one logged
failure. -/
theorem execute_job_scenario_formats_raise :
    execute_job c2_push (some c2_store) = ⟨true, [], ["chatB", "chatC"]⟩ := by
  decide

-- C10 --------------------------------------------------------------------

/-- C10: `execute_job` returns `True` exactly when the store client is
available, whatever the delivery channel does, and (with the cron
authorization passing) `do_GET` reports HTTP 200 with body status
"success" exactly in that case — per-chat formatting or push failures never
change the reported outcome. -/
theorem execute_job_reports_success_iff_store_available
    (push : String → String → Except PyErr Unit) (dbs : Option Store)
    (cron_secret auth_header : Option String)
    (hauth : cron_auth_fails cron_secret auth_header = false) :
    (execute_job push dbs).ok = dbs.isSome ∧
    (do_GET push dbs cron_secret auth_header = (200, ("success" : String))
      ↔ dbs.isSome = true) := by
  cases dbs with
  | none =>
    refine ⟨rfl, ?_⟩
    simp [do_GET, hauth, execute_job]
  | some st =>
    have hok := job_loop_ok_true push st.chats
    constructor
    · simpa [execute_job] using hok
    · simp [do_GET, hauth, execute_job, hok]

/-- A delivery channel that fails for every recipient. -/
def fail_push : String → String → Except PyErr Unit :=
  fun _ _ => Except.error PyErr.deliveryFailure

/-- C10 witness: a run over two configured chats in which every push fails
still returns `True` and reports 200 "success". -/
theorem execute_job_reports_success_iff_store_available_witness :
    cron_auth_fails none none = false ∧
    (execute_job fail_push
        (some ⟨none, [("chat1", some ("2026-01-01")), ("chat2", some ("2026-02-02"))]⟩)).ok
      = (some (⟨none, [("chat1", some ("2026-01-01")), ("chat2", some ("2026-02-02"))]⟩ : Store)).isSome ∧
    (do_GET fail_push
        (some ⟨none, [("chat1", some ("2026-01-01")), ("chat2", some ("2026-02-02"))]⟩)
        none none = (200, ("success" : String))
      ↔ (some (⟨none, [("chat1", some ("2026-01-01")), ("chat2", some ("2026-02-02"))]⟩ : Store)).isSome = true) :=
  ⟨rfl,
    (execute_job_reports_success_iff_store_available fail_push
      (some ⟨none, [("chat1", some ("2026-01-01")), ("chat2", some ("2026-02-02"))]⟩)
      none none rfl).1,
    (execute_job_reports_success_iff_store_available fail_push
      (some ⟨none, [("chat1", some ("2026-01-01")), ("chat2", some ("2026-02-02"))]⟩)
      none none rfl).2⟩
